import Mathlib

/-!
Verification of the Navihive Hierarchical Reorder & Import-Reconciliation Engine.

The definitions below are a shallow embedding of the reorder / commit / cancel
logic of `src/src/App.tsx` and `GroupCard` (concatenated into the same file),
of the payload validation in `handleImportData`, and of the export snapshot
builder `handleExportData`.  React `useState` cells become fields of explicit
state records; each event handler becomes a function from the old state (plus
the handler's inputs and the responses of awaited API calls) to the new state.
Asynchronous API results (`updateGroupOrder` returning a boolean, `fetchData`
returning the refreshed group list) are passed in as parameters.
-/

/-- Site record (`src/API/http` `Site`): optional string fields are embedded as
plain strings (absent = `""`), which is how the reorder logic treats them. -/
structure Site where
  id : Nat
  group_id : Nat
  name : String
  url : String
  icon : String
  description : String
  notes : String
  order_num : Int
deriving DecidableEq

/-- A group together with its sites (`src/types` `GroupWithSites`). -/
structure GroupWithSites where
  id : Nat
  name : String
  order_num : Int
  sites : List Site
deriving DecidableEq

/-- App.tsx lines 79-83: `enum SortMode { None, GroupSort, SiteSort }`. -/
inductive SortMode where
  | None
  | GroupSort
  | SiteSort
deriving DecidableEq, BEq

/-- The `useState` cells of `App` that the reorder engine touches
(App.tsx lines 141-145, 203-204). -/
structure AppState where
  groups : List GroupWithSites
  sortMode : SortMode
  currentSortingGroupId : Option Nat
  snackbarOpen : Bool
  snackbarMessage : String
deriving DecidableEq

/-- App.tsx lines 387-391 `handleError`: opens the snackbar with the message. -/
def handleError (s : AppState) (errorMessage : String) : AppState :=
  { s with snackbarMessage := errorMessage, snackbarOpen := true }

/-- App.tsx lines 462-465: the batched payload `groupOrders` submitted by
`handleSaveGroupOrder` — `groups.map((group, index) => ({ id: group.id,
order_num: index }))`. -/
def groupOrders (groups : List GroupWithSites) : List (Nat × Nat) :=
  groups.enum.map fun p => (p.2.id, p.1)

/-- App.tsx lines 492-495: the batched payload `siteOrders` submitted by
`handleSaveSiteOrder` — `sites.map((site, index) => ({ id: site.id,
order_num: index }))`. -/
def siteOrders (sites : List Site) : List (Nat × Nat) :=
  sites.enum.map fun p => (p.2.id, p.1)

/-- App.tsx lines 458-484 `handleSaveGroupOrder`.  `updateResult` is the value
of `await api.updateGroupOrder(groupOrders this.groups)`; `fetched` is the
group list `fetchData` installs on success (`fetchData` catches its own
errors, so control always reaches the two state resets in the success branch).
When `updateResult` is false the handler throws `new Error('分組排序更新失敗')`,
jumping to the catch block, which only calls `handleError`; the two state
resets after the `if` are skipped.  A rejected API promise takes the same
catch path. -/
def handleSaveGroupOrder (s : AppState) (updateResult : Bool)
    (fetched : List GroupWithSites) : AppState :=
  if updateResult then
    { s with groups := fetched, sortMode := SortMode.None,
             currentSortingGroupId := none }
  else
    handleError s ("更新分組排序失敗: " ++ "分組排序更新失敗")

/-- App.tsx lines 487-514 `handleSaveSiteOrder`, called by GroupCard with the
card-local staged `sites` (the submitted payload is `siteOrders sites`).  Same
control flow as `handleSaveGroupOrder`: on a false result the throw skips the
two state resets. -/
def handleSaveSiteOrder (s : AppState) (_groupId : Nat) (_sites : List Site)
    (updateResult : Bool) (fetched : List GroupWithSites) : AppState :=
  if updateResult then
    { s with groups := fetched, sortMode := SortMode.None,
             currentSortingGroupId := none }
  else
    handleError s ("更新站點排序失敗: " ++ "站點排序更新失敗")

/-- App.tsx lines 517-521 `startGroupSort`. -/
def startGroupSort (s : AppState) : AppState :=
  { s with sortMode := SortMode.GroupSort, currentSortingGroupId := none }

/-- App.tsx lines 524-528 `startSiteSort`. -/
def startSiteSort (s : AppState) (groupId : Nat) : AppState :=
  { s with sortMode := SortMode.SiteSort, currentSortingGroupId := some groupId }

/-- App.tsx lines 531-534 `cancelSort`: resets the session state only; the
`groups` list is not touched. -/
def cancelSort (s : AppState) : AppState :=
  { s with sortMode := SortMode.None, currentSortingGroupId := none }

/-- Modelled from the spec: `arrayMove` comes from the external
`@dnd-kit/sortable` package, which is not part of this repository; spec §4.2
describes the move primitive as removing the element at `fromIndex` and
reinserting it at `toIndex`, shifting intermediate elements (which is what the
library's splice-based implementation does for in-range indices). -/
def arrayMove {α : Type} (l : List α) (fromIndex toIndex : Nat) : List α :=
  match l[fromIndex]? with
  | none => l
  | some x => List.insertIdx toIndex x (l.eraseIdx fromIndex)

/-- The `DragEndEvent` data used by the handlers: `active.id` and
`over?.id`, both dnd-kit string identifiers. -/
structure DragEndEvent where
  activeId : String
  overId : Option String
deriving DecidableEq

/-- App.tsx lines 537-550 `handleDragEnd`: a group-sort drag looks up both
indices by stringified group id and replaces `groups` with
`arrayMove(groups, oldIndex, newIndex)` — it mutates the Entity Store list
`groups` directly. -/
def handleDragEnd (s : AppState) (event : DragEndEvent) : AppState :=
  match event.overId with
  | none => s
  | some overId =>
    if event.activeId ≠ overId then
      match s.groups.findIdx? (fun group => toString group.id == event.activeId),
            s.groups.findIdx? (fun group => toString group.id == overId) with
      | some oldIndex, some newIndex =>
        { s with groups := arrayMove s.groups oldIndex newIndex }
      | _, _ => s
    else s

/-- GroupCard lines 1762-1778 `handleSiteDragEnd`: a site-sort drag rearranges
only the card-local `sites` state (`site-${id}` identifiers); the App state is
never touched. -/
def handleSiteDragEnd (sites : List Site) (event : DragEndEvent) : List Site :=
  match event.overId with
  | none => sites
  | some overId =>
    if event.activeId ≠ overId then
      match sites.findIdx? (fun site => "site-" ++ toString site.id == event.activeId),
            sites.findIdx? (fun site => "site-" ++ toString site.id == overId) with
      | some oldIndex, some newIndex => arrayMove sites oldIndex newIndex
      | _, _ => sites
    else sites

/-- The `useState` cells of one `GroupCard` touched by the sort logic
(GroupCard lines 1719-1729). -/
structure GroupCardState where
  sites : List Site
  snackbarOpen : Bool
  snackbarMessage : String
  isCollapsed : Bool
deriving DecidableEq

/-- GroupCard lines 1909-1920 `handleSortClick`: with fewer than 2 sites it
only opens the card snackbar with a warning and returns; otherwise it expands
the card and calls `onStartSiteSort(group.id)` (= `startSiteSort`). -/
def handleSortClick (app : AppState) (card : GroupCardState)
    (group : GroupWithSites) : AppState × GroupCardState :=
  if group.sites.length < 2 then
    (app, { card with snackbarMessage := "至少需要2個站點才能進行排序",
                      snackbarOpen := true })
  else
    (startSiteSort app group.id, { card with isCollapsed := false })

/-- App.tsx lines 1015-1092: the 編輯排序 menu item that invokes
`startGroupSort` is rendered only in the `sortMode === SortMode.None` branch
of the header toolbar. -/
def startGroupSortRendered (app : AppState) : Bool :=
  app.sortMode == SortMode.None

/-- App.tsx line 1150 renders `GroupCard`s only when `sortMode` is not
`GroupSort`, and line 1180 passes them `sortMode` as `'None'` or `'SiteSort'`;
GroupCard line 2017 renders the 排序 button (which invokes `handleSortClick`)
only when that prop is `'None'`.  Net availability: `sortMode = None`. -/
def siteSortButtonRendered (app : AppState) : Bool :=
  app.sortMode == SortMode.None

/-- Starting a group sort through the rendered UI: the click can only happen
when the menu item exists. -/
def uiStartGroupSort (app : AppState) : AppState :=
  if startGroupSortRendered app then startGroupSort app else app

/-- Starting a site sort through the rendered UI: the click can only happen
when the card's sort button exists. -/
def uiStartSiteSort (app : AppState) (card : GroupCardState)
    (group : GroupWithSites) : AppState × GroupCardState :=
  if siteSortButtonRendered app then handleSortClick app card group
  else (app, card)

/-- Sample data used by the concrete counterexamples. -/
def sampleSite1 : Site :=
  { id := 11, group_id := 1, name := "Repo", url := "https://git.example/repo",
    icon := "", description := "", notes := "", order_num := 0 }

def sampleGroup1 : GroupWithSites :=
  { id := 1, name := "Dev", order_num := 0, sites := [sampleSite1] }

def sampleGroup2 : GroupWithSites :=
  { id := 2, name := "Ops", order_num := 1, sites := [] }

def sampleState : AppState :=
  { groups := [sampleGroup1, sampleGroup2], sortMode := SortMode.None,
    currentSortingGroupId := none, snackbarOpen := false, snackbarMessage := "" }

/-- A drag that moves group 1 onto group 2. -/
def dragOneTwo : DragEndEvent := { activeId := "1", overId := some "2" }

/-- C1: counterexample — in the state reached by starting a group-sort (resp.
site-sort) session from `sampleState`, a commit whose batched order update
returns false leaves `sortMode` equal to `GroupSort` (resp. `SiteSort`), not
`Idle` as the claim states: the throw in the failure branch skips the
`setSortMode(SortMode.None)` reset. -/
theorem c1_counterexample :
    (handleSaveGroupOrder (startGroupSort sampleState) false []).sortMode
        ≠ SortMode.None ∧
    (handleSaveSiteOrder (startSiteSort sampleState 1) 1 [] false []).sortMode
        ≠ SortMode.None := by
  constructor <;> decide

/-- C1 (amended): a successful commit ends with the session Idle
(`sortMode = None`, `currentSortingGroupId = null`); a failed commit leaves the
session state unchanged (still in its active sort mode) and surfaces an error
through the snackbar. -/
theorem c1_amended (s : AppState) (gid : Nat) (sites : List Site)
    (fetched : List GroupWithSites) :
    (handleSaveGroupOrder s true fetched).sortMode = SortMode.None ∧
    (handleSaveGroupOrder s true fetched).currentSortingGroupId = none ∧
    (handleSaveGroupOrder s false fetched).sortMode = s.sortMode ∧
    (handleSaveGroupOrder s false fetched).currentSortingGroupId
        = s.currentSortingGroupId ∧
    (handleSaveGroupOrder s false fetched).snackbarOpen = true ∧
    (handleSaveSiteOrder s gid sites true fetched).sortMode = SortMode.None ∧
    (handleSaveSiteOrder s gid sites true fetched).currentSortingGroupId = none ∧
    (handleSaveSiteOrder s gid sites false fetched).sortMode = s.sortMode ∧
    (handleSaveSiteOrder s gid sites false fetched).currentSortingGroupId
        = s.currentSortingGroupId ∧
    (handleSaveSiteOrder s gid sites false fetched).snackbarOpen = true := by
  simp [handleSaveGroupOrder, handleSaveSiteOrder, handleError]

/-- C2: counterexample — start a group sort from `sampleState`, drag group 1
onto group 2, commit with the batched update returning false: the Entity
Store's group list is the staged order `[sampleGroup2, sampleGroup1]`, not the
pre-session order `[sampleGroup1, sampleGroup2]` the claim promises. -/
theorem c2_counterexample :
    (handleSaveGroupOrder (handleDragEnd (startGroupSort sampleState) dragOneTwo)
        false []).groups = [sampleGroup2, sampleGroup1] ∧
    (handleSaveGroupOrder (handleDragEnd (startGroupSort sampleState) dragOneTwo)
        false []).groups ≠ sampleState.groups := by
  constructor <;> decide

/-- C2 (amended): a failed commit performs no refresh and leaves the Entity
Store's group list exactly as it was at commit time — i.e. the staged order
produced by the session's drag operations (which mutate `groups` directly),
not the pre-session order. -/
theorem c2_amended (s : AppState) (fetched : List GroupWithSites) :
    (handleSaveGroupOrder s false fetched).groups = s.groups := by
  simp [handleSaveGroupOrder, handleError]

/-- C3: counterexample — start a group sort from `sampleState`, drag group 1
onto group 2, cancel: the Entity Store's group list keeps the staged order and
differs from what it was when the session started. -/
theorem c3_counterexample :
    (cancelSort (handleDragEnd (startGroupSort sampleState) dragOneTwo)).groups
        ≠ sampleState.groups := by
  decide

/-- C3 (amended): cancel resets only the session state and never touches the
`groups` list itself; for a site-sort session drags mutate only the card-local
buffer, so the Entity Store is exactly as at session start, but group-sort
drags mutate the Entity Store's group list directly, so after cancel the group
list keeps whatever staged order the drags produced. -/
theorem c3_amended (s : AppState) (gid : Nat) :
    (cancelSort s).groups = s.groups ∧
    (cancelSort s).sortMode = SortMode.None ∧
    (cancelSort s).currentSortingGroupId = none ∧
    (cancelSort (startSiteSort s gid)).groups = s.groups := by
  simp [cancelSort, startSiteSort]

/-- C4: the Order Commit Protocol payload.  For any staging buffer, the
submitted pairs carry `order_num` values exactly `0..n-1` in enumeration
order (dense, 0-based) and the ids in final buffer order; the entities'
previous `order_num` values never enter the computation. -/
theorem c4_commit_orders (gs : List GroupWithSites) (ss : List Site) :
    (groupOrders gs).map Prod.snd = List.range gs.length ∧
    (groupOrders gs).map Prod.fst = gs.map (fun g => g.id) ∧
    (siteOrders ss).map Prod.snd = List.range ss.length ∧
    (siteOrders ss).map Prod.fst = ss.map (fun s => s.id) := by
  refine ⟨?_, ?_, ?_, ?_⟩
  · rw [groupOrders, List.map_map]
    have h : (Prod.snd ∘ fun p : Nat × GroupWithSites => (p.2.id, p.1))
        = Prod.fst := rfl
    rw [h, List.enum_map_fst]
  · rw [groupOrders, List.map_map]
    have h : (Prod.fst ∘ fun p : Nat × GroupWithSites => (p.2.id, p.1))
        = (fun g : GroupWithSites => g.id) ∘ Prod.snd := rfl
    rw [h, ← List.map_map, List.enum_map_snd]
  · rw [siteOrders, List.map_map]
    have h : (Prod.snd ∘ fun p : Nat × Site => (p.2.id, p.1)) = Prod.fst := rfl
    rw [h, List.enum_map_fst]
  · rw [siteOrders, List.map_map]
    have h : (Prod.fst ∘ fun p : Nat × Site => (p.2.id, p.1))
        = (fun s : Site => s.id) ∘ Prod.snd := rfl
    rw [h, ← List.map_map, List.enum_map_snd]

theorem perm_insertIdx {α : Type} (x : α) :
    ∀ (n : Nat) (l : List α), n ≤ l.length →
      List.Perm (List.insertIdx n x l) (x :: l)
  | 0, l, _ => by simp [List.insertIdx_zero]
  | n+1, [], h => absurd h (by simp)
  | n+1, a :: l, h => by
      rw [List.insertIdx_succ_cons]
      exact ((perm_insertIdx x n l (Nat.le_of_succ_le_succ h)).cons a).trans
        (List.Perm.swap x a l)

theorem perm_cons_eraseIdx {α : Type} :
    ∀ (l : List α) (i : Nat) (h : i < l.length),
      List.Perm l (l.get ⟨i, h⟩ :: l.eraseIdx i)
  | a :: l, 0, _ => by simp
  | a :: l, i+1, h => by
      have ih := perm_cons_eraseIdx l i (by simpa using h)
      simpa using (ih.cons a).trans (List.Perm.swap _ a _)

theorem insertIdx_eraseIdx_self {α : Type} :
    ∀ (l : List α) (i : Nat) (h : i < l.length),
      List.insertIdx i (l.get ⟨i, h⟩) (l.eraseIdx i) = l
  | a :: l, 0, _ => by simp [List.insertIdx_zero]
  | a :: l, i+1, h => by
      simp only [List.eraseIdx_cons_succ, List.insertIdx_succ_cons,
        List.get_cons_succ]
      exact congrArg (List.cons a) (insertIdx_eraseIdx_self l i (by simpa using h))

/-- C6: for valid indices, `arrayMove` (the staging buffer's sole mutation
primitive, invoked by both drag-end handlers) preserves length, yields a
permutation of the original buffer, puts the moved element at position
`toIndex`, leaves the relative order of all other elements intact (deleting
position `j` of the result recovers exactly the original buffer minus the
moved element), and is a no-op when both indices coincide. -/
theorem c6_move_properties {α : Type} (l : List α) (i j : Nat)
    (hi : i < l.length) (hj : j < l.length) :
    (arrayMove l i j).length = l.length ∧
    List.Perm (arrayMove l i j) l ∧
    (arrayMove l i j)[j]? = l[i]? ∧
    (arrayMove l i j).eraseIdx j = l.eraseIdx i ∧
    arrayMove l i i = l := by
  have hx : l[i]? = some (l.get ⟨i, hi⟩) := by
    rw [List.getElem?_eq_getElem hi]
    rfl
  have hlen : (l.eraseIdx i).length + 1 = l.length := List.length_eraseIdx_add_one hi
  have hjle : j ≤ (l.eraseIdx i).length := by omega
  have hmove : arrayMove l i j = List.insertIdx j (l.get ⟨i, hi⟩) (l.eraseIdx i) := by
    simp only [arrayMove, hx]
  refine ⟨?_, ?_, ?_, ?_, ?_⟩
  · rw [hmove, List.length_insertIdx _ _ hjle]
    omega
  · rw [hmove]
    exact (perm_insertIdx _ j _ hjle).trans (perm_cons_eraseIdx l i hi).symm
  · rw [hmove, hx]
    have hjlt : j < (List.insertIdx j (l.get ⟨i, hi⟩) (l.eraseIdx i)).length := by
      rw [List.length_insertIdx _ _ hjle]
      omega
    rw [List.getElem?_eq_getElem hjlt]
    exact congrArg some (List.getElem_insertIdx_self _ _ _ hjle)
  · rw [hmove, List.eraseIdx_insertIdx]
  · simp only [arrayMove, hx]
    exact insertIdx_eraseIdx_self l i hi

theorem c6_move_properties_witness :
    (0 < ([10, 20, 30] : List Nat).length) ∧
    (2 < ([10, 20, 30] : List Nat).length) ∧
    ((arrayMove ([10, 20, 30] : List Nat) 0 2).length
        = ([10, 20, 30] : List Nat).length ∧
     List.Perm (arrayMove ([10, 20, 30] : List Nat) 0 2) [10, 20, 30] ∧
     (arrayMove ([10, 20, 30] : List Nat) 0 2)[2]?
        = ([10, 20, 30] : List Nat)[0]? ∧
     (arrayMove ([10, 20, 30] : List Nat) 0 2).eraseIdx 2
        = ([10, 20, 30] : List Nat).eraseIdx 0 ∧
     arrayMove ([10, 20, 30] : List Nat) 0 0 = [10, 20, 30]) :=
  ⟨by decide, by decide, c6_move_properties [10, 20, 30] 0 2 (by decide) (by decide)⟩

/-- Card state used by concrete witnesses. -/
def sampleCard : GroupCardState :=
  { sites := [sampleSite1], snackbarOpen := false, snackbarMessage := "",
    isCollapsed := false }

/-- C7: exclusivity.  The session cell is a single tagged value, so at most
one of `GroupSort` / `SiteSort` is live; and while any sort session is
active, neither start affordance is rendered (the menu item and the card
button exist only in the `sortMode = None` branches), so an attempt to start
another session through the UI is ignored: the state is unchanged. -/
theorem c7_session_exclusivity (app : AppState) (card : GroupCardState)
    (group : GroupWithSites) (h : app.sortMode ≠ SortMode.None) :
    uiStartGroupSort app = app ∧
    uiStartSiteSort app card group = (app, card) ∧
    ¬(app.sortMode = SortMode.GroupSort ∧ app.sortMode = SortMode.SiteSort) := by
  have hg : startGroupSortRendered app = false := by
    rw [startGroupSortRendered]
    cases hsm : app.sortMode
    · exact absurd hsm h
    · rfl
    · rfl
  have hs : siteSortButtonRendered app = false := by
    rw [siteSortButtonRendered]
    cases hsm : app.sortMode
    · exact absurd hsm h
    · rfl
    · rfl
  refine ⟨by simp [uiStartGroupSort, hg], by simp [uiStartSiteSort, hs], ?_⟩
  rintro ⟨h1, h2⟩
  rw [h1] at h2
  exact SortMode.noConfusion h2

theorem c7_session_exclusivity_witness :
    ((startGroupSort sampleState).sortMode ≠ SortMode.None) ∧
    (uiStartGroupSort (startGroupSort sampleState) = startGroupSort sampleState ∧
     uiStartSiteSort (startGroupSort sampleState) sampleCard sampleGroup1
        = (startGroupSort sampleState, sampleCard) ∧
     ¬((startGroupSort sampleState).sortMode = SortMode.GroupSort ∧
       (startGroupSort sampleState).sortMode = SortMode.SiteSort)) :=
  ⟨by decide,
   c7_session_exclusivity (startGroupSort sampleState) sampleCard sampleGroup1
     (by decide)⟩

/-- C8: starting a site sort on a group with fewer than 2 sites is a no-op
with a warning: the app state (hence the Idle session) is unchanged, the
card's staged list is untouched, and the card snackbar opens with the
user-facing warning text. -/
theorem c8_small_group_sort_noop (app : AppState) (card : GroupCardState)
    (group : GroupWithSites) (hlen : group.sites.length < 2)
    (hidle : app.sortMode = SortMode.None) :
    handleSortClick app card group =
      (app, { card with snackbarMessage := "至少需要2個站點才能進行排序",
                        snackbarOpen := true }) ∧
    (handleSortClick app card group).1.sortMode = SortMode.None := by
  constructor
  · simp [handleSortClick, hlen]
  · simp [handleSortClick, hlen, hidle]

theorem c8_small_group_sort_noop_witness :
    (sampleGroup2.sites.length < 2) ∧
    (sampleState.sortMode = SortMode.None) ∧
    (handleSortClick sampleState sampleCard sampleGroup2 =
      (sampleState,
       { sampleCard with snackbarMessage := "至少需要2個站點才能進行排序",
                         snackbarOpen := true }) ∧
     (handleSortClick sampleState sampleCard sampleGroup2).1.sortMode
        = SortMode.None) :=
  ⟨by decide, by decide,
   c8_small_group_sort_noop sampleState sampleCard sampleGroup2
     (by decide) (by decide)⟩

/-- Parsed JSON values as produced by `JSON.parse`, used to embed the payload
checks of `handleImportData` (App.tsx lines 754-767) and the snapshot built by
`handleExportData` (lines 669-712). -/
inductive JsValue where
  | null
  | bool (b : Bool)
  | num (n : Int)
  | str (s : String)
  | arr (elems : List JsValue)
  | obj (fields : List (String × JsValue))

/-- JavaScript property access `v[key]`: `none` models `undefined`. -/
def getField (v : JsValue) (key : String) : Option JsValue :=
  match v with
  | JsValue.obj fields => (fields.find? (fun p => p.1 == key)).map (fun p => p.2)
  | _ => none

/-- JavaScript truthiness of a possibly-undefined value. -/
def truthy : Option JsValue → Bool
  | none => false
  | some JsValue.null => false
  | some (JsValue.bool b) => b
  | some (JsValue.num n) => n != 0
  | some (JsValue.str s) => s != ""
  | some (JsValue.arr _) => true
  | some (JsValue.obj _) => true

/-- `Array.isArray(v)` (false on `undefined`). -/
def isArrayValue : Option JsValue → Bool
  | some (JsValue.arr _) => true
  | _ => false

/-- `typeof v === 'object'`: true for objects, arrays and `null`; false for
`undefined` and the primitives. -/
def typeofObject : Option JsValue → Bool
  | some JsValue.null => true
  | some (JsValue.arr _) => true
  | some (JsValue.obj _) => true
  | _ => false

/-- App.tsx lines 757-767: the three format checks of `handleImportData`, in
code order; `some msg` is the thrown format error, `none` means the checks
pass and control reaches `await api.importData(importData)` (line 770). -/
def importFormatError (importData : JsValue) : Option String :=
  if !(truthy (getField importData "groups"))
      || !(isArrayValue (getField importData "groups")) then
    some "匯入檔案格式錯誤：缺少分組數據"
  else if !(truthy (getField importData "sites"))
      || !(isArrayValue (getField importData "sites")) then
    some "匯入檔案格式錯誤：缺少站點數據"
  else if !(truthy (getField importData "configs"))
      || !(typeofObject (getField importData "configs")) then
    some "匯入檔案格式錯誤：缺少配置數據"
  else none

/-- Whether `handleImportData` reaches the `api.importData` call (the first
and only mutating call): exactly when no format error is thrown. -/
def importApiCalled (importData : JsValue) : Bool :=
  (importFormatError importData).isNone

/-- Spec-side predicate, following the spec's words: the section is present
as a sequence. -/
def isSequence : Option JsValue → Bool
  | some (JsValue.arr _) => true
  | _ => false

/-- Spec-side predicate, following the spec's words: the section is present
as a key-value mapping. -/
def isKeyValueMapping : Option JsValue → Bool
  | some (JsValue.obj _) => true
  | _ => false

/-- A payload whose `configs` section is a JSON array — not a key-value
mapping. -/
def configsArrayPayload : JsValue :=
  JsValue.obj [("groups", JsValue.arr []), ("sites", JsValue.arr []),
               ("configs", JsValue.arr [])]

/-- C9: counterexample — `configsArrayPayload` has a `configs` section that is
not a key-value mapping, yet `handleImportData` raises no format error and the
storage import call is made: `typeof [] === 'object'` in JavaScript, so the
configs check does not reject arrays. -/
theorem c9_counterexample :
    isKeyValueMapping (getField configsArrayPayload "configs") = false ∧
    importFormatError configsArrayPayload = none ∧
    importApiCalled configsArrayPayload = true :=
  ⟨rfl, rfl, rfl⟩

/-- C9 (amended): the import call is made exactly when `groups` and `sites`
are present as sequences and `configs` is present and of JavaScript object
type — i.e. a key-value mapping or (diverging from the claim) an array.
Otherwise the import fails before any mutation with a format error naming the
first failing section in the order groups, sites, configs. -/
theorem c9_amended (d : JsValue) :
    importApiCalled d =
      (isSequence (getField d "groups") && isSequence (getField d "sites") &&
       (isKeyValueMapping (getField d "configs")
          || isSequence (getField d "configs"))) ∧
    importFormatError d =
      (if isSequence (getField d "groups") = false then
         some "匯入檔案格式錯誤：缺少分組數據"
       else if isSequence (getField d "sites") = false then
         some "匯入檔案格式錯誤：缺少站點數據"
       else if (isKeyValueMapping (getField d "configs")
          || isSequence (getField d "configs")) = false then
         some "匯入檔案格式錯誤：缺少配置數據"
       else none) := by
  have hseq : ∀ o : Option JsValue,
      (!(truthy o) || !(isArrayValue o)) = !(isSequence o) := by
    intro o
    rcases o with _ | v
    · rfl
    · cases v <;> simp [truthy, isArrayValue, isSequence]
  have hcfg : ∀ o : Option JsValue, (!(truthy o) || !(typeofObject o))
      = !(isKeyValueMapping o || isSequence o) := by
    intro o
    rcases o with _ | v
    · rfl
    · cases v <;> simp [truthy, typeofObject, isKeyValueMapping, isSequence]
  rw [importApiCalled, importFormatError, hseq, hseq, hcfg]
  cases hG : isSequence (getField d "groups") <;>
    cases hS : isSequence (getField d "sites") <;>
      cases hC : (isKeyValueMapping (getField d "configs")
          || isSequence (getField d "configs")) <;>
        simp

/-- App.tsx lines 674-679: all sites flattened into one top-level array (the
`length > 0` guard is a no-op: pushing an empty list changes nothing). -/
def allSites (groups : List GroupWithSites) : List Site :=
  groups.foldl (fun acc group => acc ++ group.sites) []

/-- A `Site` serialized into the export snapshot. -/
def siteJs (s : Site) : JsValue :=
  JsValue.obj [("id", JsValue.num s.id), ("group_id", JsValue.num s.group_id),
    ("name", JsValue.str s.name), ("url", JsValue.str s.url),
    ("icon", JsValue.str s.icon), ("description", JsValue.str s.description),
    ("notes", JsValue.str s.notes), ("order_num", JsValue.num s.order_num)]

/-- App.tsx lines 683-687: exported groups carry only id, name and
order_num. -/
def exportGroupJs (g : GroupWithSites) : JsValue :=
  JsValue.obj [("id", JsValue.num g.id), ("name", JsValue.str g.name),
               ("order_num", JsValue.num g.order_num)]

/-- App.tsx lines 681-694: the snapshot object built by `handleExportData`
from the current groups and configs (plus version and export date). -/
def handleExportData (groups : List GroupWithSites)
    (configs : List (String × String)) (exportDate : String) : JsValue :=
  JsValue.obj
    [("groups", JsValue.arr (groups.map exportGroupJs)),
     ("sites", JsValue.arr ((allSites groups).map siteJs)),
     ("configs", JsValue.obj (configs.map (fun p => (p.1, JsValue.str p.2)))),
     ("version", JsValue.str "1.0"),
     ("exportDate", JsValue.str exportDate)]

/-- C10: for every application state, the export snapshot has `groups` as an
array of records carrying only id/name/order_num, `sites` as a single
top-level array of all sites, and `configs` as an object, so it always passes
`handleImportData`'s format validation and reaches the import call. -/
theorem c10_export_import_roundtrip (groups : List GroupWithSites)
    (configs : List (String × String)) (exportDate : String) :
    getField (handleExportData groups configs exportDate) "groups"
        = some (JsValue.arr (groups.map exportGroupJs)) ∧
    getField (handleExportData groups configs exportDate) "sites"
        = some (JsValue.arr ((allSites groups).map siteJs)) ∧
    isSequence (getField (handleExportData groups configs exportDate) "groups")
        = true ∧
    isSequence (getField (handleExportData groups configs exportDate) "sites")
        = true ∧
    isKeyValueMapping
        (getField (handleExportData groups configs exportDate) "configs")
        = true ∧
    importFormatError (handleExportData groups configs exportDate) = none ∧
    importApiCalled (handleExportData groups configs exportDate) = true :=
  ⟨rfl, rfl, rfl, rfl, rfl, rfl, rfl⟩

/-- Modelled from the spec: the server-side dataset reconciler behind
`api.importData` is not part of the files under `src/` (only its caller
`handleImportData` is), so the Import Reconciler of spec §4.4 is embedded
here from the spec's words.  A stored group as the reconciler sees it. -/
structure StoreGroup where
  id : Nat
  name : String
  order_num : Int
deriving DecidableEq

/-- Modelled from the spec: a stored site as the reconciler sees it. -/
structure StoreSite where
  id : Nat
  group_id : Nat
  name : String
  url : String
  icon : String
  description : String
  notes : String
  order_num : Int
deriving DecidableEq

/-- Modelled from the spec: the persisted state the reconciler merges into —
groups, sites, the opaque config key-value store, and the storage id
counter that assigns fresh ids to created entities. -/
structure StoreState where
  groups : List StoreGroup
  sites : List StoreSite
  configs : String → Option String
  nextId : Nat

/-- Modelled from the spec: an incoming group record `{id?, name, order_num}`
of the snapshot (§4.4). -/
structure ImportGroup where
  id : Option Nat
  name : String
  order_num : Int
deriving DecidableEq

/-- Modelled from the spec: an incoming site record of the snapshot; its
`group_id` refers to the snapshot's own group ids and is resolved through
group matching. -/
structure ImportSite where
  group_id : Nat
  name : String
  url : String
  icon : String
  description : String
  notes : String
  order_num : Int
deriving DecidableEq

/-- Modelled from the spec: a validated snapshot `{groups, sites, configs}`. -/
structure Snapshot where
  groups : List ImportGroup
  sites : List ImportSite
  configs : List (String × String)
deriving DecidableEq

/-- Group half of the statistics record of §4.4. -/
structure GroupStats where
  total : Nat
  created : Nat
  merged : Nat
deriving DecidableEq

/-- Site half of the statistics record of §4.4. -/
structure SiteStats where
  total : Nat
  created : Nat
  updated : Nat
  skipped : Nat
deriving DecidableEq

/-- The statistics record `{groups, sites}` of §4.4. -/
structure ImportStats where
  groups : GroupStats
  sites : SiteStats
deriving DecidableEq

/-- Group matching key (§4.4): first existing group with the same name
(case-sensitive exact match, first-match-wins per §9). -/
def findGroupByName (gs : List StoreGroup) (name : String) : Option StoreGroup :=
  gs.find? (fun g => g.name == name)

/-- The store id a matched name resolves to (0 is never consulted: callers
establish that a match exists). -/
def matchedGroupId (gs : List StoreGroup) (name : String) : Nat :=
  match findGroupByName gs name with
  | some ex => ex.id
  | none => 0

/-- Record the translation from a snapshot group id to the store group id it
merged into or was created as (snapshot groups without ids add nothing). -/
def addMapping (mp : List (Nat × Nat)) (fileId : Option Nat)
    (storeId : Nat) : List (Nat × Nat) :=
  match fileId with
  | some f => mp ++ [(f, storeId)]
  | none => mp

/-- Modelled from the spec (§4.4 group reconciliation): a name match merges
(identity retained, `merged` incremented, no store change); otherwise a new
group is created with a fresh storage id, appended to the store (`created`
incremented).  Matching is against the live store, so groups created earlier
in the same run are candidates — required for the determinism/idempotence
§4.4 demands. -/
def importOneGroup (acc : StoreState × List (Nat × Nat) × GroupStats)
    (g : ImportGroup) : StoreState × List (Nat × Nat) × GroupStats :=
  match findGroupByName acc.1.groups g.name with
  | some ex =>
      (acc.1, addMapping acc.2.1 g.id ex.id,
       { acc.2.2 with merged := acc.2.2.merged + 1 })
  | none =>
      ({ acc.1 with
           groups := acc.1.groups ++ [⟨acc.1.nextId, g.name, g.order_num⟩],
           nextId := acc.1.nextId + 1 },
       addMapping acc.2.1 g.id acc.1.nextId,
       { acc.2.2 with created := acc.2.2.created + 1 })

def importGroupsAux (acc : StoreState × List (Nat × Nat) × GroupStats)
    (gs : List ImportGroup) : StoreState × List (Nat × Nat) × GroupStats :=
  gs.foldl importOneGroup acc

/-- The full group phase: fold the snapshot's groups over the store, starting
from empty mapping and `total := `number of snapshot groups. -/
def importGroups (st : StoreState) (gs : List ImportGroup) :
    StoreState × List (Nat × Nat) × GroupStats :=
  importGroupsAux (st, [], ⟨gs.length, 0, 0⟩) gs

/-- Resolve a snapshot site's `group_id` through the group mapping
(first-match-wins); an unmapped id is kept as-is. -/
def resolveGid (mp : List (Nat × Nat)) (gid : Nat) : Nat :=
  match mp.find? (fun p => p.1 == gid) with
  | some p => p.2
  | none => gid

/-- Site matching key (§4.4): `(url, resolved group_id)`. -/
def siteKeyMatches (url : String) (gid : Nat) (ex : StoreSite) : Bool :=
  ex.url == url && ex.group_id == gid

def findSite (sites : List StoreSite) (url : String) (gid : Nat) :
    Option StoreSite :=
  sites.find? (siteKeyMatches url gid)

/-- Whether an existing site already carries exactly the incoming record's
updatable content (name/icon/description/notes; url is equal by matching),
i.e. the record is identical and the site is skipped rather than updated. -/
def contentEq (s : ImportSite) (ex : StoreSite) : Bool :=
  ex.name == s.name && ex.icon == s.icon &&
    ex.description == s.description && ex.notes == s.notes

/-- Update in place: overwrite name/icon/description/notes, never the site's
own id, url, group or order. -/
def updateContent (ex : StoreSite) (s : ImportSite) : StoreSite :=
  { ex with name := s.name, icon := s.icon, description := s.description,
            notes := s.notes }

/-- Rewrite the first element satisfying `p` (first-match-wins update). -/
def updateFirst {α : Type} (p : α → Bool) (f : α → α) : List α → List α
  | [] => []
  | x :: xs => if p x then f x :: xs else x :: updateFirst p f xs

/-- Modelled from the spec (§4.4 site reconciliation): look up the incoming
site by `(url, resolved group_id)` in the live store; an identical match is
skipped, a differing match is updated in place, no match creates a new site
with a fresh storage id. -/
def importOneSite (mp : List (Nat × Nat)) (acc : StoreState × SiteStats)
    (s : ImportSite) : StoreState × SiteStats :=
  match findSite acc.1.sites s.url (resolveGid mp s.group_id) with
  | some ex =>
      if contentEq s ex then
        (acc.1, { acc.2 with skipped := acc.2.skipped + 1 })
      else
        ({ acc.1 with
             sites := updateFirst (siteKeyMatches s.url (resolveGid mp s.group_id))
               (fun e => updateContent e s) acc.1.sites },
         { acc.2 with updated := acc.2.updated + 1 })
  | none =>
      ({ acc.1 with
           sites := acc.1.sites ++
             [⟨acc.1.nextId, resolveGid mp s.group_id, s.name, s.url, s.icon,
               s.description, s.notes, s.order_num⟩],
           nextId := acc.1.nextId + 1 },
       { acc.2 with created := acc.2.created + 1 })

def importSitesAux (mp : List (Nat × Nat)) (acc : StoreState × SiteStats)
    (ss : List ImportSite) : StoreState × SiteStats :=
  ss.foldl (importOneSite mp) acc

/-- The full site phase. -/
def importSites (st : StoreState) (mp : List (Nat × Nat))
    (ss : List ImportSite) : StoreState × SiteStats :=
  importSitesAux mp (st, ⟨ss.length, 0, 0, 0⟩) ss

/-- Config merge (§4.4): an imported pair overwrites the value for its key;
other keys are untouched. -/
def setConfigValue (c : String → Option String) (key value : String) :
    String → Option String :=
  fun k => if key = k then some value else c k

def applyConfigs (c : String → Option String)
    (entries : List (String × String)) : String → Option String :=
  entries.foldl (fun acc p => setConfigValue acc p.1 p.2) c

/-- Modelled from the spec: the whole Import Reconciler of §4.4 — group
phase, then site phase with the group mapping, then additive config merge —
returning the new store and the statistics record. -/
def importDataset (st : StoreState) (snap : Snapshot) :
    StoreState × ImportStats :=
  let gr := importGroups st snap.groups
  let sr := importSites gr.1 gr.2.1 snap.sites
  ({ sr.1 with configs := applyConfigs sr.1.configs snap.configs },
   ⟨gr.2.2, sr.2⟩)

/-- The key a snapshot site is matched under, given the group mapping. -/
def siteKeyOf (mp : List (Nat × Nat)) (s : ImportSite) : String × Nat :=
  (s.url, resolveGid mp s.group_id)

theorem find?_append_some {α : Type} {p : α → Bool} {l₁ : List α} {a : α}
    (l₂ : List α) (h : l₁.find? p = some a) : (l₁ ++ l₂).find? p = some a := by
  induction l₁ with
  | nil => simp [List.find?] at h
  | cons x xs ih =>
      rw [List.cons_append]
      cases hx : p x with
      | true => rw [List.find?_cons_of_pos _ hx] at h ⊢; exact h
      | false =>
          rw [List.find?_cons_of_neg _ (by simp [hx])] at h ⊢
          exact ih h

theorem find?_append_none {α : Type} {p : α → Bool} {l₁ : List α}
    (l₂ : List α) (h : l₁.find? p = none) : (l₁ ++ l₂).find? p = l₂.find? p := by
  induction l₁ with
  | nil => simp
  | cons x xs ih =>
      rw [List.cons_append]
      cases hx : p x with
      | true => rw [List.find?_cons_of_pos _ hx] at h; exact absurd h (by simp)
      | false =>
          rw [List.find?_cons_of_neg _ (by simp [hx])] at h ⊢
          exact ih h

theorem siteKeyMatches_updateContent (url : String) (gid : Nat)
    (e : StoreSite) (s : ImportSite) :
    siteKeyMatches url gid (updateContent e s) = siteKeyMatches url gid e := rfl

theorem contentEq_updateContent (s : ImportSite) (ex : StoreSite) :
    contentEq s (updateContent ex s) = true := by
  simp [contentEq, updateContent]

theorem findSite_updateFirst_ne (url : String) (gid : Nat) (url' : String)
    (gid' : Nat) (s : ImportSite) (hne : ¬(url' = url ∧ gid' = gid)) :
    ∀ (sites : List StoreSite),
    findSite (updateFirst (siteKeyMatches url' gid')
        (fun e => updateContent e s) sites) url gid
      = findSite sites url gid
  | [] => rfl
  | x :: xs => by
      cases hpx : siteKeyMatches url' gid' x with
      | true =>
          have hx : x.url = url' ∧ x.group_id = gid' := by
            simpa [siteKeyMatches] using hpx
          have hnot : siteKeyMatches url gid x = false := by
            cases hmatch : siteKeyMatches url gid x with
            | false => rfl
            | true =>
                have hx2 : x.url = url ∧ x.group_id = gid := by
                  simpa [siteKeyMatches] using hmatch
                exact absurd ⟨hx.1.symm.trans hx2.1, hx.2.symm.trans hx2.2⟩ hne
          rw [updateFirst, if_pos hpx, findSite, findSite,
            List.find?_cons_of_neg _ (by rw [siteKeyMatches_updateContent]; simp [hnot]),
            List.find?_cons_of_neg _ (by simp [hnot])]
      | false =>
          rw [updateFirst, if_neg (by simp [hpx])]
          cases hmatch : siteKeyMatches url gid x with
          | true =>
              rw [findSite, findSite, List.find?_cons_of_pos _ hmatch,
                List.find?_cons_of_pos _ hmatch]
          | false =>
              rw [findSite, findSite, List.find?_cons_of_neg _ (by simp [hmatch]),
                List.find?_cons_of_neg _ (by simp [hmatch])]
              exact findSite_updateFirst_ne url gid url' gid' s hne xs

theorem findSite_updateFirst_self (url : String) (gid : Nat) (s : ImportSite) :
    ∀ (sites : List StoreSite) (ex : StoreSite),
    findSite sites url gid = some ex →
    findSite (updateFirst (siteKeyMatches url gid)
        (fun e => updateContent e s) sites) url gid = some (updateContent ex s)
  | [], ex, h => by simp [findSite, List.find?] at h
  | x :: xs, ex, h => by
      cases hpx : siteKeyMatches url gid x with
      | true =>
          rw [findSite, List.find?_cons_of_pos _ hpx] at h
          cases h
          rw [updateFirst, if_pos hpx, findSite,
            List.find?_cons_of_pos _ (by rw [siteKeyMatches_updateContent]; exact hpx)]
      | false =>
          rw [findSite, List.find?_cons_of_neg _ (by simp [hpx])] at h
          rw [updateFirst, if_neg (by simp [hpx]), findSite,
            List.find?_cons_of_neg _ (by simp [hpx])]
          exact findSite_updateFirst_self url gid s xs ex h

theorem importGroupsAux_all_matched :
    ∀ (gs : List ImportGroup) (st : StoreState) (mp0 : List (Nat × Nat))
      (s0 : GroupStats),
      (∀ g ∈ gs, (findGroupByName st.groups g.name).isSome = true) →
      importGroupsAux (st, mp0, s0) gs
        = (st,
           mp0 ++ gs.filterMap (fun g => g.id.map
             (fun f => (f, matchedGroupId st.groups g.name))),
           { s0 with merged := s0.merged + gs.length })
  | [], st, mp0, s0, _ => by simp [importGroupsAux]
  | g :: rest, st, mp0, s0, h => by
      obtain ⟨ex, hex⟩ := Option.isSome_iff_exists.mp (h g (by simp))
      have hstep : importOneGroup (st, mp0, s0) g
          = (st, addMapping mp0 g.id ex.id,
             { s0 with merged := s0.merged + 1 }) := by
        simp [importOneGroup, hex]
      have ih := importGroupsAux_all_matched rest st (addMapping mp0 g.id ex.id)
        { s0 with merged := s0.merged + 1 }
        (fun g' hg' => h g' (by simp [hg']))
      rw [importGroupsAux, List.foldl_cons, hstep]
      rw [importGroupsAux] at ih
      rw [ih]
      simp only [Prod.mk.injEq]
      refine ⟨trivial, ?_, ?_⟩
      · cases hgid : g.id with
        | none => simp [addMapping, List.filterMap_cons, hgid]
        | some fid =>
            simp [addMapping, List.filterMap_cons, hgid, matchedGroupId, hex]
      · have : s0.merged + 1 + rest.length = s0.merged + (g :: rest).length := by
          simp
          omega
        exact congrArg (fun m => { s0 with merged := m }) this

theorem importGroupsAux_run1 :
    ∀ (gs : List ImportGroup) (st : StoreState) (mp0 : List (Nat × Nat))
      (s0 : GroupStats),
      (∃ app, (importGroupsAux (st, mp0, s0) gs).1.groups = st.groups ++ app) ∧
      (importGroupsAux (st, mp0, s0) gs).1.sites = st.sites ∧
      (importGroupsAux (st, mp0, s0) gs).1.configs = st.configs ∧
      (∀ g ∈ gs,
        (findGroupByName (importGroupsAux (st, mp0, s0) gs).1.groups
          g.name).isSome = true) ∧
      (importGroupsAux (st, mp0, s0) gs).2.1
        = mp0 ++ gs.filterMap (fun g => g.id.map (fun f =>
            (f, matchedGroupId (importGroupsAux (st, mp0, s0) gs).1.groups
                  g.name)))
  | [], st, mp0, s0 => by
      refine ⟨⟨[], by simp [importGroupsAux]⟩, rfl, rfl, by simp,
        by simp [importGroupsAux]⟩
  | g :: rest, st, mp0, s0 => by
      cases hfind : findGroupByName st.groups g.name with
      | some ex =>
          have hstep : importOneGroup (st, mp0, s0) g
              = (st, addMapping mp0 g.id ex.id,
                 { s0 with merged := s0.merged + 1 }) := by
            simp [importOneGroup, hfind]
          have hunfold : importGroupsAux (st, mp0, s0) (g :: rest)
              = importGroupsAux (st, addMapping mp0 g.id ex.id,
                  { s0 with merged := s0.merged + 1 }) rest := by
            rw [importGroupsAux, List.foldl_cons, hstep, importGroupsAux]
          obtain ⟨⟨app, happ⟩, hsites, hconfigs, hsome, hmp⟩ :=
            importGroupsAux_run1 rest st (addMapping mp0 g.id ex.id)
              { s0 with merged := s0.merged + 1 }
          rw [hunfold]
          have hfindR : findGroupByName
              (importGroupsAux (st, addMapping mp0 g.id ex.id,
                { s0 with merged := s0.merged + 1 }) rest).1.groups g.name
              = some ex := by
            rw [happ, findGroupByName]
            rw [findGroupByName] at hfind
            exact find?_append_some _ hfind
          refine ⟨⟨app, happ⟩, hsites, hconfigs, ?_, ?_⟩
          · intro g' hg'
            rcases List.mem_cons.mp hg' with h1 | h2
            · subst h1
              rw [hfindR]
              rfl
            · exact hsome g' h2
          · rw [hmp]
            cases hgid : g.id with
            | none => simp [addMapping, List.filterMap_cons, hgid]
            | some fid =>
                rw [hgid] at hfindR
                simp only [addMapping] at hfindR ⊢
                simp [List.filterMap_cons, matchedGroupId, hfindR, hgid]
      | none =>
          have hstep : importOneGroup (st, mp0, s0) g
              = ({ st with
                     groups := st.groups ++ [⟨st.nextId, g.name, g.order_num⟩],
                     nextId := st.nextId + 1 },
                 addMapping mp0 g.id st.nextId,
                 { s0 with created := s0.created + 1 }) := by
            simp [importOneGroup, hfind]
          have hunfold : importGroupsAux (st, mp0, s0) (g :: rest)
              = importGroupsAux ({ st with
                     groups := st.groups ++ [⟨st.nextId, g.name, g.order_num⟩],
                     nextId := st.nextId + 1 },
                  addMapping mp0 g.id st.nextId,
                  { s0 with created := s0.created + 1 }) rest := by
            rw [importGroupsAux, List.foldl_cons, hstep, importGroupsAux]
          obtain ⟨⟨app, happ⟩, hsites, hconfigs, hsome, hmp⟩ :=
            importGroupsAux_run1 rest
              { st with
                  groups := st.groups ++ [⟨st.nextId, g.name, g.order_num⟩],
                  nextId := st.nextId + 1 }
              (addMapping mp0 g.id st.nextId)
              { s0 with created := s0.created + 1 }
          rw [hunfold]
          have happ' : (importGroupsAux ({ st with
                     groups := st.groups ++ [⟨st.nextId, g.name, g.order_num⟩],
                     nextId := st.nextId + 1 },
                  addMapping mp0 g.id st.nextId,
                  { s0 with created := s0.created + 1 }) rest).1.groups
              = st.groups ++ (⟨st.nextId, g.name, g.order_num⟩ :: app) := by
            rw [happ]
            simp
          have hfindR : findGroupByName (importGroupsAux ({ st with
                     groups := st.groups ++ [⟨st.nextId, g.name, g.order_num⟩],
                     nextId := st.nextId + 1 },
                  addMapping mp0 g.id st.nextId,
                  { s0 with created := s0.created + 1 }) rest).1.groups g.name
              = some ⟨st.nextId, g.name, g.order_num⟩ := by
            rw [happ', findGroupByName]
            rw [findGroupByName] at hfind
            rw [find?_append_none _ hfind]
            exact List.find?_cons_of_pos _ (by simp)
          refine ⟨⟨⟨st.nextId, g.name, g.order_num⟩ :: app, happ'⟩, hsites,
            hconfigs, ?_, ?_⟩
          · intro g' hg'
            rcases List.mem_cons.mp hg' with h1 | h2
            · subst h1
              rw [hfindR]
              rfl
            · exact hsome g' h2
          · rw [hmp]
            cases hgid : g.id with
            | none => simp [addMapping, List.filterMap_cons, hgid]
            | some fid =>
                rw [hgid] at hfindR
                simp only [addMapping] at hfindR ⊢
                simp [List.filterMap_cons, matchedGroupId, hfindR, hgid]

theorem importSitesAux_groups_configs (mp : List (Nat × Nat)) :
    ∀ (ss : List ImportSite) (st : StoreState) (stats : SiteStats),
      (importSitesAux mp (st, stats) ss).1.groups = st.groups ∧
      (importSitesAux mp (st, stats) ss).1.configs = st.configs ∧
      (importSitesAux mp (st, stats) ss).2.total = stats.total
  | [], st, stats => ⟨rfl, rfl, rfl⟩
  | s :: rest, st, stats => by
      rw [importSitesAux, List.foldl_cons]
      cases hfind : findSite st.sites s.url (resolveGid mp s.group_id) with
      | some ex =>
          cases hc : contentEq s ex with
          | true =>
              have hstep : importOneSite mp (st, stats) s
                  = (st, { stats with skipped := stats.skipped + 1 }) := by
                simp [importOneSite, hfind, hc]
              rw [hstep]
              exact importSitesAux_groups_configs mp rest st _
          | false =>
              have hstep : importOneSite mp (st, stats) s
                  = ({ st with
                         sites := updateFirst
                                    (siteKeyMatches s.url (resolveGid mp s.group_id))
                                    (fun e => updateContent e s) st.sites },
                     { stats with updated := stats.updated + 1 }) := by
                simp [importOneSite, hfind, hc]
              rw [hstep]
              exact importSitesAux_groups_configs mp rest _ _
      | none =>
          have hstep : importOneSite mp (st, stats) s
              = ({ st with
                     sites := st.sites ++
                                [⟨st.nextId, resolveGid mp s.group_id, s.name,
                                  s.url, s.icon, s.description, s.notes,
                                  s.order_num⟩],
                     nextId := st.nextId + 1 },
                 { stats with created := stats.created + 1 }) := by
            simp [importOneSite, hfind]
          rw [hstep]
          exact importSitesAux_groups_configs mp rest _ _

theorem importSitesAux_findSite_frame (mp : List (Nat × Nat)) (url : String)
    (gid : Nat) :
    ∀ (ss : List ImportSite) (st : StoreState) (stats : SiteStats),
      (∀ s ∈ ss, ¬(s.url = url ∧ resolveGid mp s.group_id = gid)) →
      findSite (importSitesAux mp (st, stats) ss).1.sites url gid
        = findSite st.sites url gid
  | [], st, stats, _ => rfl
  | s :: rest, st, stats, h => by
      have hs : ¬(s.url = url ∧ resolveGid mp s.group_id = gid) := h s (by simp)
      have hrest : ∀ s' ∈ rest, ¬(s'.url = url ∧ resolveGid mp s'.group_id = gid) :=
        fun s' h' => h s' (by simp [h'])
      rw [importSitesAux, List.foldl_cons]
      cases hfind : findSite st.sites s.url (resolveGid mp s.group_id) with
      | some ex =>
          cases hc : contentEq s ex with
          | true =>
              have hstep : importOneSite mp (st, stats) s
                  = (st, { stats with skipped := stats.skipped + 1 }) := by
                simp [importOneSite, hfind, hc]
              rw [hstep]
              exact importSitesAux_findSite_frame mp url gid rest st _ hrest
          | false =>
              have hstep : importOneSite mp (st, stats) s
                  = ({ st with
                         sites := updateFirst
                                    (siteKeyMatches s.url (resolveGid mp s.group_id))
                                    (fun e => updateContent e s) st.sites },
                     { stats with updated := stats.updated + 1 }) := by
                simp [importOneSite, hfind, hc]
              rw [hstep]
              have hrec := importSitesAux_findSite_frame mp url gid rest
                { st with
                    sites := updateFirst
                               (siteKeyMatches s.url (resolveGid mp s.group_id))
                               (fun e => updateContent e s) st.sites }
                { stats with updated := stats.updated + 1 } hrest
              rw [importSitesAux] at hrec
              rw [hrec]
              exact findSite_updateFirst_ne url gid s.url
                (resolveGid mp s.group_id) s hs st.sites
      | none =>
          have hstep : importOneSite mp (st, stats) s
              = ({ st with
                     sites := st.sites ++
                                [⟨st.nextId, resolveGid mp s.group_id, s.name,
                                  s.url, s.icon, s.description, s.notes,
                                  s.order_num⟩],
                     nextId := st.nextId + 1 },
                 { stats with created := stats.created + 1 }) := by
            simp [importOneSite, hfind]
          rw [hstep]
          have hrec := importSitesAux_findSite_frame mp url gid rest
            { st with
                sites := st.sites ++
                           [⟨st.nextId, resolveGid mp s.group_id, s.name,
                             s.url, s.icon, s.description, s.notes,
                             s.order_num⟩],
                nextId := st.nextId + 1 }
            { stats with created := stats.created + 1 } hrest
          rw [importSitesAux] at hrec
          rw [hrec]
          show findSite (st.sites ++
            [⟨st.nextId, resolveGid mp s.group_id, s.name, s.url, s.icon,
              s.description, s.notes, s.order_num⟩]) url gid
            = findSite st.sites url gid
          cases hfs : findSite st.sites url gid with
          | some a =>
              rw [findSite] at hfs ⊢
              exact find?_append_some _ hfs
          | none =>
              rw [findSite] at hfs ⊢
              rw [find?_append_none _ hfs]
              rw [List.find?_cons_of_neg, List.find?_nil]
              simp only [siteKeyMatches]
              simp only [Bool.and_eq_true, beq_iff_eq]
              exact fun hcon => hs ⟨hcon.1, hcon.2⟩

theorem importSitesAux_run1 (mp : List (Nat × Nat)) :
    ∀ (ss : List ImportSite) (st : StoreState) (stats : SiteStats),
      (ss.map (siteKeyOf mp)).Nodup →
      ∀ s ∈ ss, ∃ ex,
        findSite (importSitesAux mp (st, stats) ss).1.sites s.url
            (resolveGid mp s.group_id) = some ex ∧ contentEq s ex = true
  | [], _, _, _ => by simp
  | s :: rest, st, stats, hnd => by
      have hnd' : (rest.map (siteKeyOf mp)).Nodup := by
        rw [List.map_cons, List.nodup_cons] at hnd
        exact hnd.2
      have hnotin : ∀ s' ∈ rest,
          ¬(s'.url = s.url ∧
            resolveGid mp s'.group_id = resolveGid mp s.group_id) := by
        intro s' h' hcon
        rw [List.map_cons, List.nodup_cons] at hnd
        apply hnd.1
        have hkey : siteKeyOf mp s' = siteKeyOf mp s := by
          simp [siteKeyOf, hcon.1, hcon.2]
        rw [← hkey]
        exact List.mem_map_of_mem _ h'
      rw [importSitesAux, List.foldl_cons]
      cases hfind : findSite st.sites s.url (resolveGid mp s.group_id) with
      | some ex =>
          cases hc : contentEq s ex with
          | true =>
              have hstep : importOneSite mp (st, stats) s
                  = (st, { stats with skipped := stats.skipped + 1 }) := by
                simp [importOneSite, hfind, hc]
              rw [hstep]
              intro s' hs'
              rcases List.mem_cons.mp hs' with h1 | h2
              · subst h1
                have hframe := importSitesAux_findSite_frame mp s'.url
                  (resolveGid mp s'.group_id) rest st
                  { stats with skipped := stats.skipped + 1 } hnotin
                rw [importSitesAux] at hframe
                refine ⟨ex, ?_, hc⟩
                rw [hframe]
                exact hfind
              · exact importSitesAux_run1 mp rest st _ hnd' s' h2
          | false =>
              have hstep : importOneSite mp (st, stats) s
                  = ({ st with
                         sites := updateFirst
                                    (siteKeyMatches s.url (resolveGid mp s.group_id))
                                    (fun e => updateContent e s) st.sites },
                     { stats with updated := stats.updated + 1 }) := by
                simp [importOneSite, hfind, hc]
              rw [hstep]
              intro s' hs'
              rcases List.mem_cons.mp hs' with h1 | h2
              · subst h1
                have hframe := importSitesAux_findSite_frame mp s'.url
                  (resolveGid mp s'.group_id) rest
                  { st with
                      sites := updateFirst
                                 (siteKeyMatches s'.url (resolveGid mp s'.group_id))
                                 (fun e => updateContent e s') st.sites }
                  { stats with updated := stats.updated + 1 } hnotin
                rw [importSitesAux] at hframe
                refine ⟨updateContent ex s', ?_, contentEq_updateContent s' ex⟩
                rw [hframe]
                exact findSite_updateFirst_self s'.url (resolveGid mp s'.group_id)
                  s' st.sites ex hfind
              · exact importSitesAux_run1 mp rest _ _ hnd' s' h2
      | none =>
          have hstep : importOneSite mp (st, stats) s
              = ({ st with
                     sites := st.sites ++
                                [⟨st.nextId, resolveGid mp s.group_id, s.name,
                                  s.url, s.icon, s.description, s.notes,
                                  s.order_num⟩],
                     nextId := st.nextId + 1 },
                 { stats with created := stats.created + 1 }) := by
            simp [importOneSite, hfind]
          rw [hstep]
          intro s' hs'
          rcases List.mem_cons.mp hs' with h1 | h2
          · subst h1
            have hframe := importSitesAux_findSite_frame mp s'.url
              (resolveGid mp s'.group_id) rest
              { st with
                  sites := st.sites ++
                             [⟨st.nextId, resolveGid mp s'.group_id, s'.name,
                               s'.url, s'.icon, s'.description, s'.notes,
                               s'.order_num⟩],
                  nextId := st.nextId + 1 }
              { stats with created := stats.created + 1 } hnotin
            rw [importSitesAux] at hframe
            refine ⟨⟨st.nextId, resolveGid mp s'.group_id, s'.name, s'.url,
              s'.icon, s'.description, s'.notes, s'.order_num⟩, ?_, ?_⟩
            · rw [hframe]
              show findSite (st.sites ++
                [⟨st.nextId, resolveGid mp s'.group_id, s'.name, s'.url,
                  s'.icon, s'.description, s'.notes, s'.order_num⟩])
                s'.url (resolveGid mp s'.group_id) = _
              rw [findSite] at hfind ⊢
              rw [find?_append_none _ hfind]
              exact List.find?_cons_of_pos _ (by simp [siteKeyMatches])
            · simp [contentEq]
          · exact importSitesAux_run1 mp rest _ _ hnd' s' h2

theorem importSitesAux_all_identical (mp : List (Nat × Nat)) :
    ∀ (ss : List ImportSite) (st : StoreState) (stats : SiteStats),
      (∀ s ∈ ss, ∃ ex,
        findSite st.sites s.url (resolveGid mp s.group_id) = some ex ∧
          contentEq s ex = true) →
      importSitesAux mp (st, stats) ss
        = (st, { stats with skipped := stats.skipped + ss.length })
  | [], st, stats, _ => by simp [importSitesAux]
  | s :: rest, st, stats, h => by
      obtain ⟨ex, hfind, hc⟩ := h s (by simp)
      have hstep : importOneSite mp (st, stats) s
          = (st, { stats with skipped := stats.skipped + 1 }) := by
        simp [importOneSite, hfind, hc]
      have ih := importSitesAux_all_identical mp rest st
        { stats with skipped := stats.skipped + 1 }
        (fun s' h' => h s' (by simp [h']))
      rw [importSitesAux, List.foldl_cons, hstep]
      rw [importSitesAux] at ih
      rw [ih]
      simp only [Prod.mk.injEq]
      refine ⟨trivial, ?_⟩
      have : stats.skipped + 1 + rest.length = stats.skipped + (s :: rest).length := by
        simp
        omega
      exact congrArg (fun m => { stats with skipped := m }) this

def lookupLast (entries : List (String × String)) (k : String) :
    Option String :=
  match entries with
  | [] => none
  | p :: rest =>
      match lookupLast rest k with
      | some v => some v
      | none => if p.1 = k then some p.2 else none

theorem applyConfigs_eq_lookupLast :
    ∀ (entries : List (String × String)) (c : String → Option String)
      (k : String),
      applyConfigs c entries k
        = match lookupLast entries k with
          | some v => some v
          | none => c k
  | [], c, k => rfl
  | p :: rest, c, k => by
      rw [applyConfigs, List.foldl_cons]
      have ih := applyConfigs_eq_lookupLast rest (setConfigValue c p.1 p.2) k
      rw [applyConfigs] at ih
      rw [ih, lookupLast]
      cases hl : lookupLast rest k with
      | some v => rfl
      | none =>
          by_cases hpk : p.1 = k
          · simp [setConfigValue, hpk]
          · simp [setConfigValue, hpk]

theorem applyConfigs_idem (c : String → Option String)
    (entries : List (String × String)) :
    applyConfigs (applyConfigs c entries) entries = applyConfigs c entries := by
  funext k
  have h1 := applyConfigs_eq_lookupLast entries (applyConfigs c entries) k
  have h2 := applyConfigs_eq_lookupLast entries c k
  rw [h1]
  cases hl : lookupLast entries k with
  | some v => rw [h2, hl]
  | none => rfl

/-- C5 (amended): re-importing a snapshot whose group names map to distinct
store groups and whose sites have pairwise distinct matching keys
`(url, resolved group_id)` is fully idempotent: the second run leaves the
store exactly as the first left it, and its statistics report
`merged = total, created = 0` for groups and
`skipped = total, created = updated = 0` for sites. -/
theorem c5_import_idempotent (st : StoreState) (snap : Snapshot)
    (hkeys : (snap.sites.map
      (siteKeyOf (importGroups st snap.groups).2.1)).Nodup) :
    (importDataset (importDataset st snap).1 snap).1 = (importDataset st snap).1 ∧
    (importDataset (importDataset st snap).1 snap).2.groups.total
        = snap.groups.length ∧
    (importDataset (importDataset st snap).1 snap).2.groups.merged
        = snap.groups.length ∧
    (importDataset (importDataset st snap).1 snap).2.groups.created = 0 ∧
    (importDataset (importDataset st snap).1 snap).2.sites.total
        = snap.sites.length ∧
    (importDataset (importDataset st snap).1 snap).2.sites.skipped
        = snap.sites.length ∧
    (importDataset (importDataset st snap).1 snap).2.sites.created = 0 ∧
    (importDataset (importDataset st snap).1 snap).2.sites.updated = 0 := by
  simp only [importGroups] at hkeys
  obtain ⟨⟨app1, happ1⟩, hsites1, hconfigs1, hsome1, hmp1⟩ :=
    importGroupsAux_run1 snap.groups st [] ⟨snap.groups.length, 0, 0⟩
  obtain ⟨hSg, hSc, hStot⟩ :=
    importSitesAux_groups_configs
      (importGroupsAux (st, [], ⟨snap.groups.length, 0, 0⟩) snap.groups).2.1
      snap.sites
      (importGroupsAux (st, [], ⟨snap.groups.length, 0, 0⟩) snap.groups).1
      ⟨snap.sites.length, 0, 0, 0⟩
  have hSL1 := importSitesAux_run1
    (importGroupsAux (st, [], ⟨snap.groups.length, 0, 0⟩) snap.groups).2.1
    snap.sites
    (importGroupsAux (st, [], ⟨snap.groups.length, 0, 0⟩) snap.groups).1
    ⟨snap.sites.length, 0, 0, 0⟩ hkeys
  generalize hR1 : (importDataset st snap).1 = R1
  have hr1groups : R1.groups
      = (importGroupsAux (st, [], ⟨snap.groups.length, 0, 0⟩)
          snap.groups).1.groups := by
    rw [← hR1]
    exact hSg
  have hsome2 : ∀ g ∈ snap.groups,
      (findGroupByName R1.groups g.name).isSome = true := by
    intro g hg
    rw [hr1groups]
    exact hsome1 g hg
  have hG2 := importGroupsAux_all_matched snap.groups R1 []
    ⟨snap.groups.length, 0, 0⟩ hsome2
  have hmp2 : ([] : List (Nat × Nat)) ++ snap.groups.filterMap
      (fun g => g.id.map (fun f => (f, matchedGroupId R1.groups g.name)))
      = (importGroupsAux (st, [], ⟨snap.groups.length, 0, 0⟩)
          snap.groups).2.1 := by
    rw [hmp1]
    simp only [hr1groups]
  have hident : ∀ s ∈ snap.sites, ∃ ex,
      findSite R1.sites s.url
        (resolveGid (importGroupsAux (st, [], ⟨snap.groups.length, 0, 0⟩)
          snap.groups).2.1 s.group_id) = some ex ∧ contentEq s ex = true := by
    intro s hs
    have hx : R1.sites = (importSitesAux
        (importGroupsAux (st, [], ⟨snap.groups.length, 0, 0⟩) snap.groups).2.1
        ((importGroupsAux (st, [], ⟨snap.groups.length, 0, 0⟩) snap.groups).1,
          ⟨snap.sites.length, 0, 0, 0⟩) snap.sites).1.sites := by
      rw [← hR1]
      rfl
    rw [hx]
    exact hSL1 s hs
  have hSL2 := importSitesAux_all_identical
    (importGroupsAux (st, [], ⟨snap.groups.length, 0, 0⟩) snap.groups).2.1
    snap.sites R1 ⟨snap.sites.length, 0, 0, 0⟩ hident
  have hcfgidem : applyConfigs R1.configs snap.configs = R1.configs := by
    have hx : R1.configs = applyConfigs (importSitesAux
        (importGroupsAux (st, [], ⟨snap.groups.length, 0, 0⟩) snap.groups).2.1
        ((importGroupsAux (st, [], ⟨snap.groups.length, 0, 0⟩) snap.groups).1,
          ⟨snap.sites.length, 0, 0, 0⟩) snap.sites).1.configs snap.configs := by
      rw [← hR1]
      rfl
    rw [hx]
    exact applyConfigs_idem _ _
  have hr2 : importDataset R1 snap
      = (R1, ⟨⟨snap.groups.length, 0, 0 + snap.groups.length⟩,
              ⟨snap.sites.length, 0, 0, 0 + snap.sites.length⟩⟩) := by
    simp only [importDataset, importGroups, importSites]
    rw [hG2]
    dsimp only
    rw [hmp2, hSL2]
    dsimp only
    rw [hcfgidem]
  refine ⟨by rw [hr2], by rw [hr2], ?_, by rw [hr2], by rw [hr2], ?_,
    by rw [hr2], by rw [hr2]⟩
  · rw [hr2]
    dsimp only
    exact Nat.zero_add _
  · rw [hr2]
    dsimp only
    exact Nat.zero_add _

/-- An empty persisted store. -/
def emptyStore : StoreState :=
  { groups := [], sites := [], configs := fun _ => none, nextId := 1 }

/-- A snapshot containing two site records with the same matching key
`(url, group)` but different names. -/
def dupSiteSnapshot : Snapshot :=
  { groups := [⟨some 1, "A", 0⟩],
    sites := [⟨1, "x", "https://u.example", "", "", "", 0⟩,
              ⟨1, "y", "https://u.example", "", "", "", 0⟩],
    configs := [] }

/-- C5: counterexample — importing `dupSiteSnapshot` twice into an empty
store is not idempotent in the claimed sense: the second run's site
statistics report 2 updates and 0 skips (the two records with the same key
keep overwriting the same stored site), not `skipped = total` and
`updated = 0` as the claim states. -/
theorem c5_counterexample :
    (importDataset (importDataset emptyStore dupSiteSnapshot).1
        dupSiteSnapshot).2.sites.updated = 2 ∧
    (importDataset (importDataset emptyStore dupSiteSnapshot).1
        dupSiteSnapshot).2.sites.skipped = 0 ∧
    (importDataset (importDataset emptyStore dupSiteSnapshot).1
        dupSiteSnapshot).2.sites.total = 2 := by
  refine ⟨by decide, by decide, by decide⟩

/-- A well-keyed snapshot used to witness the amended idempotence theorem. -/
def sampleSnapshot : Snapshot :=
  { groups := [⟨some 1, "Dev", 0⟩],
    sites := [⟨1, "Repo", "https://git.example/repo", "", "", "", 0⟩],
    configs := [("site.title", "X")] }

theorem c5_import_idempotent_witness :
    (sampleSnapshot.sites.map
      (siteKeyOf (importGroups emptyStore sampleSnapshot.groups).2.1)).Nodup ∧
    ((importDataset (importDataset emptyStore sampleSnapshot).1
        sampleSnapshot).1 = (importDataset emptyStore sampleSnapshot).1 ∧
     (importDataset (importDataset emptyStore sampleSnapshot).1
        sampleSnapshot).2.groups.total = sampleSnapshot.groups.length ∧
     (importDataset (importDataset emptyStore sampleSnapshot).1
        sampleSnapshot).2.groups.merged = sampleSnapshot.groups.length ∧
     (importDataset (importDataset emptyStore sampleSnapshot).1
        sampleSnapshot).2.groups.created = 0 ∧
     (importDataset (importDataset emptyStore sampleSnapshot).1
        sampleSnapshot).2.sites.total = sampleSnapshot.sites.length ∧
     (importDataset (importDataset emptyStore sampleSnapshot).1
        sampleSnapshot).2.sites.skipped = sampleSnapshot.sites.length ∧
     (importDataset (importDataset emptyStore sampleSnapshot).1
        sampleSnapshot).2.sites.created = 0 ∧
     (importDataset (importDataset emptyStore sampleSnapshot).1
        sampleSnapshot).2.sites.updated = 0) :=
  ⟨by decide, c5_import_idempotent emptyStore sampleSnapshot (by decide)⟩
